import Mathlib

/-
  Shallow embedding of the labscript_core compilation pipeline
  (src/bases.py, src/devices.py, src/instructions.py, src/shot.py).

  Times are modelled as rationals; the Python int() builtin (truncation
  toward zero) is modelled by pyTrunc below. Python exceptions are modelled
  by an Err type; a method that can raise returns an Except Err result
  paired with the state as it stands when the exception propagates (Python
  object state persists across a raise, so incomplete mutations are visible).
-/

/-- Compilation phases, in order (bases.py, class phase(IntEnum)). -/
inductive Phase where
  | addDevices
  | establishCommonLimits
  | establishInitialAttributes
  | addInstructions
  | convertTiming
  | checkInstructionsValid
deriving DecidableEq, Repr

/-- Identifiers for the phase-restricted methods of bases.py. -/
inductive MethodId where
  | deviceInit
  | addDevice
  | instructionInit
  | addInstruction
  | convertTiming
  | establishCommonLimits
  | establishInitialAttributes
deriving DecidableEq, Repr

/-- Errors raised by the embedded code. TypeError and ValueError raised on
illegal composition (bases.py add_device / add_instruction, shot.py
Shot.add_device) are both modelled by the structural constructor, matching
the StructuralError of the specification taxonomy. -/
inductive Err where
  | wrongPhase (m : MethodId)
  | alreadyCalled (m : MethodId)
  | notCalled (nodeId : Nat) (m : MethodId)
  | structural
deriving DecidableEq, Repr

/-- The phase each decorated method declares via @enforce_phase(...) in
bases.py: Device.__init__ and HasDevices.add_device declare ADD_DEVICES,
Instruction.__init__ and HasInstructions.add_instruction declare
ADD_INSTRUCTIONS, Instruction.convert_timing declares CONVERT_TIMING,
HasDevices.establish_common_limits and establish_initial_attributes declare
their namesake phases. -/
def declaredPhase : MethodId → Phase
  | .deviceInit => .addDevices
  | .addDevice => .addDevices
  | .instructionInit => .addInstructions
  | .addInstruction => .addInstructions
  | .convertTiming => .convertTiming
  | .establishCommonLimits => .establishCommonLimits
  | .establishInitialAttributes => .establishInitialAttributes

/-- Which decorated methods pass exactly_once=True to @enforce_phase in
bases.py: convert_timing, establish_common_limits and
establish_initial_attributes. -/
def isExactlyOnce : MethodId → Bool
  | .convertTiming => true
  | .establishCommonLimits => true
  | .establishInitialAttributes => true
  | _ => false

/-- State visible to the enforce_phase wrapper around one node: the phase
owned by the Shot, the set of (phase, method) records of exactly-once
methods already called on this node (self._required_methods_called_by_phase
in bases.py), and the rest of the node state. -/
structure EnfState (σ : Type) where
  shotPhase : Phase
  called : List (Phase × MethodId)
  inner : σ
deriving DecidableEq

/-- The check_phase wrapper produced by HasParent.enforce_phase in bases.py
(lines 108-137): first the phase check (WrongPhaseError), then for
exactly-once methods the repeat check (AlreadyCalledError) and the
recording of the call, and only then the wrapped method body. -/
def enforcePhase {σ α : Type} (m : MethodId)
    (body : EnfState σ → Except Err α × EnfState σ)
    (s : EnfState σ) : Except Err α × EnfState σ :=
  if s.shotPhase ≠ declaredPhase m then
    (.error (.wrongPhase m), s)
  else if isExactlyOnce m = true ∧ (declaredPhase m, m) ∈ s.called then
    (.error (.alreadyCalled m), s)
  else if isExactlyOnce m = true then
    body { s with called := (declaredPhase m, m) :: s.called }
  else
    body s

/-- Device class tags, one per class in bases.py and devices.py. -/
inductive DeviceKind where
  | device
  | staticDevice
  | output
  | staticOutput
  | trigger
  | triggerableDevice
  | clockableDevice
  | clockLine
  | pseudoclock
  | pseudoclockDevice
deriving DecidableEq, Repr

/-- Reflexive-transitive subclass relation of the Python class hierarchy:
StaticDevice, Output, TriggerableDevice, ClockableDevice, ClockLine and
Pseudoclock extend Device; StaticOutput and Trigger extend Output;
PseudoclockDevice extends TriggerableDevice. isinstance(x, C) for a device
x of class K corresponds to subclassOf K C. -/
def subclassOf : DeviceKind → DeviceKind → Bool
  | _, .device => true
  | k, .output => (k matches .output | .staticOutput | .trigger)
  | k, .triggerableDevice => (k matches .triggerableDevice | .pseudoclockDevice)
  | k, c => k = c

/-- A node that can own child devices: the Shot or a Device. -/
inductive NodeKind where
  | shot
  | dev (k : DeviceKind)
deriving DecidableEq, Repr

/-- The allowed_devices class attribute of each HasDevices class:
HasDevices and Device default to [Device] (set after class construction in
bases.py); Trigger allows [TriggerableDevice]; ClockLine allows
[ClockableDevice]; Pseudoclock allows [ClockLine]; PseudoclockDevice allows
[Pseudoclock]; Shot allows [PseudoclockDevice, StaticDevice]; the remaining
classes inherit [Device]. -/
def allowedDevices : NodeKind → List DeviceKind
  | .shot => [.pseudoclockDevice, .staticDevice]
  | .dev .trigger => [.triggerableDevice]
  | .dev .clockLine => [.clockableDevice]
  | .dev .pseudoclock => [.clockLine]
  | .dev .pseudoclockDevice => [.pseudoclock]
  | .dev _ => [.device]

/-- The isinstance test of HasDevices.add_device (bases.py line 249):
any(isinstance(device, cls) for cls in self.allowed_devices). -/
def accepts (parent : NodeKind) (child : DeviceKind) : Bool :=
  (allowedDevices parent).any (fun c => subclassOf child c)

/-- Attributes of a device node relevant to the embedded passes: an
identifier standing for object identity, the class tag, and the
clock_minimum_trigger and clock_minimum_period attributes set by
ClockableDevice.__init__ (devices.py lines 30-39; zero on classes that do
not define them). -/
structure DevAttrs where
  devId : Nat
  kind : DeviceKind
  clockMinimumTrigger : ℚ
  clockMinimumPeriod : ℚ
deriving DecidableEq, Repr

mutual
/-- A device subtree: a device and its ordered child devices. -/
inductive DevTree where
  | node (attrs : DevAttrs) (children : DevForest)
deriving DecidableEq, Repr

/-- An ordered list of device subtrees (the devices attribute of a
HasDevices instance, in insertion order). -/
inductive DevForest where
  | nil
  | cons (t : DevTree) (rest : DevForest)
deriving DecidableEq, Repr
end

/-- Attributes at the root of a subtree. -/
def DevTree.attrs : DevTree → DevAttrs
  | .node a _ => a

/-- Children forest of a subtree root. -/
def DevTree.children : DevTree → DevForest
  | .node _ c => c

mutual
/-- HasDevices.descendant_devices (bases.py lines 255-269), transcribed
with its loop structure intact: for each child, if it is a Pseudoclock or
recurse_into_pseudoclocks is false, skip it; otherwise include it and its
recursive descendants. -/
def DevTree.descendantDevices (recurse : Bool) : DevTree → List DevAttrs
  | .node _ children => DevForest.descendantDevices recurse children

/-- Loop body of descendant_devices over the devices list. -/
def DevForest.descendantDevices (recurse : Bool) : DevForest → List DevAttrs
  | .nil => []
  | .cons d rest =>
      if subclassOf d.attrs.kind .pseudoclock || !recurse then
        DevForest.descendantDevices recurse rest
      else
        d.attrs :: (DevTree.descendantDevices recurse d
          ++ DevForest.descendantDevices recurse rest)
end

/-- The Python int() builtin on a rational: truncation toward zero
(floor for nonnegative arguments, ceiling for negative ones). -/
def pyTrunc (q : ℚ) : ℤ :=
  if 0 ≤ q then q.floor else q.ceil

/-- The attributes ClockLine.establish_common_limits computes (devices.py
lines 51-55): the common clock limits and, as object identities, the
limiting devices (some id; the ClockLine stores itself as the initial
period-limiting device). -/
structure ClockLimits where
  commonClockMinimumPeriod : ℚ
  commonClockMinimumTrigger : ℚ
  clockPeriodLimitingDevice : Option Nat
  clockTriggerLimitingDevice : Option Nat
deriving DecidableEq, Repr

/-- Loop of ClockLine.establish_common_limits (devices.py lines 69-76):
for each yielded descendant that is a ClockableDevice, take the running
maxima of clock_minimum_period and clock_minimum_trigger, recording which
device set each maximum. -/
def clockLimitsLoop : List DevAttrs → ClockLimits → ClockLimits
  | [], acc => acc
  | d :: ds, acc =>
      let acc2 :=
        if subclassOf d.kind .clockableDevice then
          let acc3 :=
            if d.clockMinimumPeriod > acc.commonClockMinimumPeriod then
              { acc with commonClockMinimumPeriod := d.clockMinimumPeriod,
                         clockPeriodLimitingDevice := some d.devId }
            else acc
          if d.clockMinimumTrigger > acc3.commonClockMinimumTrigger then
            { acc3 with commonClockMinimumTrigger := d.clockMinimumTrigger,
                        clockTriggerLimitingDevice := some d.devId }
          else acc3
        else acc
      clockLimitsLoop ds acc2

/-- ClockLine.establish_common_limits (devices.py lines 57-87). The
super() call only recurses into children, whose base implementation
changes no attribute read here, so it is not modelled as a state change.
Starting values: the parent Pseudoclock clock_minimum_period (copied to
the ClockLine at construction, devices.py line 48) with the ClockLine
itself as limiting device, and a zero trigger duration with no limiting
device. After the loop the period is replaced by
(int(common_clock_minimum_period) + 1) * timebase; the trigger duration
is left as the loop produced it. -/
def ClockLine.establishCommonLimits (selfId : Nat)
    (clockMinimumPeriod timebase : ℚ) (children : DevForest) : ClockLimits :=
  let init : ClockLimits :=
    { commonClockMinimumPeriod := clockMinimumPeriod
      commonClockMinimumTrigger := 0
      clockPeriodLimitingDevice := some selfId
      clockTriggerLimitingDevice := none }
  let limits := clockLimitsLoop (DevForest.descendantDevices false children) init
  let quantised : ℤ := pyTrunc limits.commonClockMinimumPeriod + 1
  { limits with commonClockMinimumPeriod := (quantised : ℚ) * timebase }

/-- View of a parent node as needed by Device.__init__: its identity, its
class tag, the shot and pseudoclock references that the child inherits,
and its child-device list (as identities, in insertion order). -/
structure ParentView where
  nodeId : Nat
  kind : NodeKind
  shot : Nat
  pseudoclock : Option Nat
  devices : List Nat
deriving DecidableEq, Repr

/-- References bound on a freshly constructed Device: its parent, its shot
and its pseudoclock (bases.py lines 361-366; devices.py line 112). -/
structure ChildBindings where
  parent : Nat
  shot : Nat
  pseudoclock : Option Nat
deriving DecidableEq, Repr

/-- HasDevices.add_device (bases.py lines 247-253) together with its
@enforce_phase(phase.ADD_DEVICES) wrapper: reject outside ADD_DEVICES,
reject (TypeError, modelled structural) a child whose class passes no
isinstance test against allowed_devices, otherwise append the child to
the devices list. -/
def HasDevices.addDevice (shotPhase : Phase) (parent : ParentView)
    (childId : Nat) (childKind : DeviceKind) : Except Err ParentView :=
  if shotPhase ≠ Phase.addDevices then .error (.wrongPhase .addDevice)
  else if ¬ accepts parent.kind childKind then .error .structural
  else .ok { parent with devices := parent.devices ++ [childId] }

/-- Device.__init__ (bases.py lines 360-366) with its
@enforce_phase(phase.ADD_DEVICES) wrapper, plus the pseudoclock
self-binding done afterwards by Pseudoclock.__init__ (devices.py line
112). Order of effects: the wrapper phase check (the shot is read off the
parent argument), then HasParent.__init__ binds child.parent and
child.shot, then self.parent.add_device(self) (which may raise, leaving
the parent devices list unchanged), then self.pseudoclock is bound to the
parent pseudoclock, overridden with the child itself when the child is a
Pseudoclock. Returns the child bindings and the parent state as left by
the call. -/
def Device.init (shotPhase : Phase) (parent : ParentView)
    (childId : Nat) (childKind : DeviceKind) :
    Except Err ChildBindings × ParentView :=
  if shotPhase ≠ Phase.addDevices then (.error (.wrongPhase .deviceInit), parent)
  else
    match HasDevices.addDevice shotPhase parent childId childKind with
    | .error e => (.error e, parent)
    | .ok parent2 =>
        let pc : Option Nat :=
          if subclassOf childKind .pseudoclock then some childId
          else parent.pseudoclock
        (.ok { parent := parent.nodeId, shot := parent.shot, pseudoclock := pc },
         parent2)

/-- State of a Shot as touched by Shot.add_device (shot.py lines 32-39):
the phase, the direct child devices (identity and class tag, insertion
order) and the master_pseudoclock reference. -/
structure ShotState where
  phase : Phase
  devices : List (Nat × DeviceKind)
  masterPseudoclock : Option Nat
deriving DecidableEq, Repr

/-- The super().add_device call made by Shot.add_device: the base
HasDevices.add_device (bases.py lines 247-253) with its
@enforce_phase(phase.ADD_DEVICES) wrapper, operating on the Shot, whose
allowed_devices is [PseudoclockDevice, StaticDevice] (shot.py line 13). -/
def Shot.superAddDevice (childId : Nat) (childKind : DeviceKind)
    (s1 : ShotState) : Except Err Unit × ShotState :=
  if s1.phase ≠ Phase.addDevices then (.error (.wrongPhase .addDevice), s1)
  else if ¬ accepts .shot childKind then (.error .structural, s1)
  else (.ok (), { s1 with devices := s1.devices ++ [(childId, childKind)] })

/-- Shot.add_device (shot.py lines 32-39): a PseudoclockDevice child is
rejected (ValueError, modelled structural) when a master pseudoclock
device is already recorded, and otherwise recorded as the master before
super().add_device runs. The state is returned as it stands when an
exception propagates (the master assignment precedes the wrapped super()
call). -/
def Shot.addDevice (childId : Nat) (childKind : DeviceKind)
    (s : ShotState) : Except Err Unit × ShotState :=
  if subclassOf childKind .pseudoclockDevice then
    match s.masterPseudoclock with
    | some _ => (.error .structural, s)
    | none => Shot.superAddDevice childId childKind
        { s with masterPseudoclock := some childId }
  else
    Shot.superAddDevice childId childKind s

/-- Number of direct PseudoclockDevice children of the Shot. -/
def pcdCount (s : ShotState) : Nat :=
  (s.devices.filter (fun p => subclassOf p.2 .pseudoclockDevice)).length

/-- Invariant of the Shot state: at most one direct PseudoclockDevice
child, strengthened (for induction) with the bookkeeping fact that while
no master pseudoclock device is recorded there is no PseudoclockDevice
child at all. -/
def shotInv (s : ShotState) : Prop :=
  pcdCount s ≤ 1 ∧ (s.masterPseudoclock = none → pcdCount s = 0)

instance (s : ShotState) : Decidable (shotInv s) := by
  unfold shotInv; infer_instance

/-- The timing fields of an Instruction (bases.py lines 186-188): the
nominal time t, and relative_t and quantised_t, both initialised to None
by Instruction.__init__ and to be computed during processing. -/
structure InstrTiming where
  t : ℚ
  relativeT : Option ℚ
  quantisedT : Option ℤ
deriving DecidableEq, Repr

/-- The timing fields as Instruction.__init__ leaves them. -/
def Instruction.initTiming (t : ℚ) : InstrTiming :=
  { t := t, relativeT := none, quantisedT := none }

/-- Body of Instruction.convert_timing (bases.py lines 198-207): the body
is the single statement pass, so no timing field is assigned. -/
def Instruction.convertTimingBody (waits : List ℚ) :
    EnfState InstrTiming → Except Err Unit × EnfState InstrTiming :=
  fun s => (.ok (), s)

/-- Instruction.convert_timing as callable: the pass body wrapped by
@enforce_phase(phase.CONVERT_TIMING, exactly_once=True). -/
def Instruction.convertTiming (waits : List ℚ)
    (s : EnfState InstrTiming) : Except Err Unit × EnfState InstrTiming :=
  enforcePhase .convertTiming (Instruction.convertTimingBody waits) s

/-- Function.convert_timing (instructions.py lines 31-33): calls the base
implementation and then pass, so it is the same wrapped no-op. -/
def Function.convertTiming (waits : List ℚ)
    (s : EnfState InstrTiming) : Except Err Unit × EnfState InstrTiming :=
  Instruction.convertTiming waits s

/-- A node as registered in the per-shot instance registry
(HasParent.__instances_by_shot): its identity and its record of
exactly-once methods already called, keyed by phase. -/
structure RegNode where
  nodeId : Nat
  called : List (Phase × MethodId)
deriving DecidableEq, Repr

/-- The methods registered as required exactly once in each phase via
@enforce_phase(..., exactly_once=True) in bases.py. The registration key
class is HasParent (enforce_phase is a classmethod accessed through
HasParent), of which every registered node is an instance, so the
isinstance filter in _check_required_methods_called passes for every
node. -/
def requiredOnce : Phase → List MethodId
  | .establishCommonLimits => [.establishCommonLimits]
  | .establishInitialAttributes => [.establishInitialAttributes]
  | .convertTiming => [.convertTiming]
  | _ => []

/-- HasParent._check_required_methods_called (bases.py lines 142-153):
raise NotCalledError about one required method of the exited phase that
is missing from the node record of called methods. -/
def checkRequiredMethodsCalled (p : Phase) (n : RegNode) : Except Err Unit :=
  match (requiredOnce p).filter (fun m => decide ((p, m) ∉ n.called)) with
  | [] => .ok ()
  | m :: _ => .error (.notCalled n.nodeId m)

/-- Loop of HasParent.set_phase over the per-shot instance registry. -/
def checkAllInstances (p : Phase) : List RegNode → Except Err Unit
  | [] => .ok ()
  | n :: rest =>
      match checkRequiredMethodsCalled p n with
      | .ok _ => checkAllInstances p rest
      | .error e => .error e

/-- The phase-advance state of a Shot: its current phase (None before
Shot.__init__ assigns ADD_DEVICES) and the registry of all nodes created
under it, in registration order. -/
structure ShotPhaseState where
  phase : Option Phase
  instances : List RegNode
deriving DecidableEq, Repr

/-- HasParent.set_phase (bases.py lines 76-87): when a phase is being
exited, every registered instance is checked for required exactly-once
methods of that phase before the new phase is assigned; a raised
NotCalledError propagates and the phase is left unadvanced. -/
def setPhase (newPhase : Phase) (s : ShotPhaseState) :
    Except Err ShotPhaseState :=
  match s.phase with
  | none => .ok { s with phase := some newPhase }
  | some p =>
      match checkAllInstances p s.instances with
      | .ok _ => .ok { s with phase := some newPhase }
      | .error e => .error e

/-
  Concrete inputs, mirroring the example tree in the source (a
  PseudoclockDevice holding a Pseudoclock with timebase 1/10, a ClockLine,
  and a ClockableDevice with clock_minimum_trigger 1/10 and
  clock_minimum_period 6/5).
-/

/-- A ClockableDevice with clock_minimum_trigger 1/10 and
clock_minimum_period 6/5. -/
def exClockable : DevTree :=
  .node { devId := 4, kind := .clockableDevice,
          clockMinimumTrigger := 1/10, clockMinimumPeriod := 6/5 } .nil

/-- A ClockLine holding the ClockableDevice. -/
def exClockLine : DevTree :=
  .node { devId := 3, kind := .clockLine,
          clockMinimumTrigger := 0, clockMinimumPeriod := 0 }
    (.cons exClockable .nil)

/-- A Pseudoclock holding the ClockLine. -/
def exPseudoclock : DevTree :=
  .node { devId := 2, kind := .pseudoclock,
          clockMinimumTrigger := 0, clockMinimumPeriod := 0 }
    (.cons exClockLine .nil)

/-- A PseudoclockDevice holding the Pseudoclock. -/
def exPCD : DevTree :=
  .node { devId := 1, kind := .pseudoclockDevice,
          clockMinimumTrigger := 0, clockMinimumPeriod := 0 }
    (.cons exPseudoclock .nil)

/-- The direct children of the Shot in the example tree. -/
def exShotForest : DevForest := .cons exPCD .nil

/-- The limits the example ClockLine computes, with the pseudoclock
clock_minimum_period 1 and timebase 1/10. -/
def exClockLineLimits : ClockLimits :=
  ClockLine.establishCommonLimits 3 1 (1/10) (.cons exClockable .nil)

/-- An instruction-node state in phase CONVERT_TIMING with no exactly-once
method called yet and nominal time 5/2. -/
def exConvertState : EnfState InstrTiming :=
  { shotPhase := .convertTiming, called := [],
    inner := Instruction.initTiming (5/2) }

/-- A parent view of a Pseudoclock node with no children yet. -/
def exPseudoclockParent : ParentView :=
  { nodeId := 10, kind := .dev .pseudoclock, shot := 0,
    pseudoclock := some 10, devices := [] }

/-- A Shot state in ADD_DEVICES that already has a master pseudoclock
device recorded. -/
def exShotWithMaster : ShotState :=
  { phase := .addDevices, devices := [(7, .pseudoclockDevice)],
    masterPseudoclock := some 7 }

/-- A registry state exiting ESTABLISH_COMMON_LIMITS with one node on
which establish_common_limits was never called. -/
def exPhaseState : ShotPhaseState :=
  { phase := some .establishCommonLimits, instances := [{ nodeId := 0, called := [] }] }

/-
  Helper lemmas.
-/

/-- A node with a gap in its called record makes the per-node check fail. -/
theorem checkRequired_error_of_gap (p : Phase) (n : RegNode) (m : MethodId)
    (hm : m ∈ requiredOnce p) (hmiss : (p, m) ∉ n.called) :
    ∃ e, checkRequiredMethodsCalled p n = .error e := by
  unfold checkRequiredMethodsCalled
  cases hf : (requiredOnce p).filter (fun m2 => decide ((p, m2) ∉ n.called)) with
  | nil =>
      exfalso
      have hmem : m ∈ (requiredOnce p).filter (fun m2 => decide ((p, m2) ∉ n.called)) :=
        List.mem_filter.mpr ⟨hm, by simpa using hmiss⟩
      rw [hf] at hmem
      exact absurd hmem (List.not_mem_nil m)
  | cons m2 t => exact ⟨_, rfl⟩

/-- Any error of the per-node check names the node and one genuinely
missing required method. -/
theorem checkRequired_error_shape (p : Phase) (n : RegNode) (e : Err)
    (h : checkRequiredMethodsCalled p n = .error e) :
    ∃ m2, m2 ∈ requiredOnce p ∧ (p, m2) ∉ n.called ∧ e = .notCalled n.nodeId m2 := by
  unfold checkRequiredMethodsCalled at h
  cases hf : (requiredOnce p).filter (fun m2 => decide ((p, m2) ∉ n.called)) with
  | nil => rw [hf] at h; cases h
  | cons m2 t =>
      rw [hf] at h
      have hmem : m2 ∈ (requiredOnce p).filter (fun m3 => decide ((p, m3) ∉ n.called)) := by
        rw [hf]; exact List.mem_cons_self m2 t
      have hprops := List.mem_filter.mp hmem
      refine ⟨m2, hprops.1, by simpa using hprops.2, ?_⟩
      injection h with h2
      exact h2.symm

/-- If some node in the registry slice has a gap, the registry check
fails, naming a node with a gap. -/
theorem checkAll_error_of_gap (p : Phase) (l : List RegNode)
    (hgap : ∃ n ∈ l, ∃ m ∈ requiredOnce p, (p, m) ∉ n.called) :
    ∃ n2 ∈ l, ∃ m2 ∈ requiredOnce p, (p, m2) ∉ n2.called ∧
      checkAllInstances p l = .error (.notCalled n2.nodeId m2) := by
  induction l with
  | nil =>
      obtain ⟨n, hn, _⟩ := hgap
      exact absurd hn (List.not_mem_nil n)
  | cons n0 rest ih =>
      obtain ⟨n, hn, m, hm, hmiss⟩ := hgap
      cases h0 : checkRequiredMethodsCalled p n0 with
      | error e =>
          obtain ⟨m2, hm2, hmiss2, he⟩ := checkRequired_error_shape p n0 e h0
          refine ⟨n0, List.mem_cons_self n0 rest, m2, hm2, hmiss2, ?_⟩
          simp [checkAllInstances, h0, he]
      | ok u =>
          have hrest : n ∈ rest := by
            rcases List.mem_cons.mp hn with heq | hmem
            · exfalso
              obtain ⟨e, he⟩ := checkRequired_error_of_gap p n m hm hmiss
              rw [heq] at he
              rw [he] at h0
              cases h0
            · exact hmem
          obtain ⟨n2, hn2, m2, hm2, hmiss2, heq⟩ := ih ⟨n, hrest, m, hm, hmiss⟩
          refine ⟨n2, List.mem_cons_of_mem n0 hn2, m2, hm2, hmiss2, ?_⟩
          simp [checkAllInstances, h0, heq]

/-- Appending one child changes the PseudoclockDevice child count by one
exactly when the child is a PseudoclockDevice. -/
theorem pcdCount_append (s : ShotState) (cid : Nat) (k : DeviceKind) :
    pcdCount { s with devices := s.devices ++ [(cid, k)] }
      = pcdCount s + (if subclassOf k .pseudoclockDevice then 1 else 0) := by
  by_cases hk : subclassOf k .pseudoclockDevice = true <;>
    simp [pcdCount, List.filter_append, hk]

/-- The state left by the wrapped base add_device on the Shot: unchanged,
or with exactly the new child appended. -/
theorem superAdd_state (cid : Nat) (k : DeviceKind) (s1 : ShotState) :
    (Shot.superAddDevice cid k s1).2 = s1 ∨
    (Shot.superAddDevice cid k s1).2 = { s1 with devices := s1.devices ++ [(cid, k)] } := by
  unfold Shot.superAddDevice
  split
  · exact Or.inl rfl
  · split
    · exact Or.inl rfl
    · exact Or.inr rfl

/-- The wrapped base add_device preserves the Shot invariant whenever the
incoming state has room for the child being added. -/
theorem shotInv_superAdd (cid : Nat) (k : DeviceKind) (s1 : ShotState)
    (h : pcdCount s1 + (if subclassOf k .pseudoclockDevice then 1 else 0) ≤ 1)
    (h2 : s1.masterPseudoclock = none →
      pcdCount s1 = 0 ∧ subclassOf k .pseudoclockDevice = false) :
    shotInv (Shot.superAddDevice cid k s1).2 := by
  rcases superAdd_state cid k s1 with hst | hst <;> rw [hst]
  · exact ⟨le_trans (Nat.le_add_right _ _) h, fun hmn => (h2 hmn).1⟩
  · constructor
    · rw [pcdCount_append]
      exact h
    · intro hmn
      have hmn2 : s1.masterPseudoclock = none := hmn
      rcases h2 hmn2 with ⟨hz, hkf⟩
      rw [pcdCount_append, hz, hkf]
      simp

/-
  Claim theorems.
-/

/-- C6: a phase-restricted operation (add_device for ADD_DEVICES,
Instruction construction and add_instruction for ADD_INSTRUCTIONS,
convert_timing for CONVERT_TIMING, and the rest of the declaredPhase
table), invoked while the Shot current phase differs from the declared
phase, fails with WrongPhaseError. -/
theorem enforce_phase_wrong_phase_rejected {σ α : Type} (m : MethodId)
    (body : EnfState σ → Except Err α × EnfState σ) (s : EnfState σ)
    (h : s.shotPhase ≠ declaredPhase m) :
    (enforcePhase m body s).1 = .error (.wrongPhase m) := by
  simp [enforcePhase, h]

/-- Witness for C6: calling add_device while the Shot is in phase
CONVERT_TIMING fails with WrongPhaseError. -/
theorem enforce_phase_wrong_phase_rejected_witness :
    (enforcePhase (σ := Unit) .addDevice (fun t => (.ok (), t))
      { shotPhase := .convertTiming, called := [], inner := () }).1
      = .error (.wrongPhase .addDevice) :=
  enforce_phase_wrong_phase_rejected .addDevice _ _ (by decide)

/-- C10: the enforce_phase wrapper performs the phase check before the
wrapped body runs, so a call rejected with WrongPhaseError returns the
node state (child lists, instruction lists, computed attributes: the
whole EnfState, its inner component included) exactly as it was. -/
theorem enforce_phase_wrong_phase_no_mutation {σ α : Type} (m : MethodId)
    (body : EnfState σ → Except Err α × EnfState σ) (s : EnfState σ)
    (h : s.shotPhase ≠ declaredPhase m) :
    (enforcePhase m body s).2 = s := by
  simp [enforcePhase, h]

/-- Witness for C10: a convert_timing call in phase ADD_INSTRUCTIONS is
rejected with the instruction state untouched. -/
theorem enforce_phase_wrong_phase_no_mutation_witness :
    (enforcePhase .convertTiming (Instruction.convertTimingBody [7])
      { shotPhase := .addInstructions, called := [], inner := Instruction.initTiming 3 }).2
      = { shotPhase := .addInstructions, called := [], inner := Instruction.initTiming 3 } :=
  enforce_phase_wrong_phase_no_mutation .convertTiming _ _ (by decide)

/-- C7: calling an exactly-once operation (convert_timing,
establish_common_limits or establish_initial_attributes, the methods with
isExactlyOnce true) a second time on the same node in its declared phase
fails with AlreadyCalledError, for any body that does not tamper with the
phase or the called record of the node. -/
theorem exactly_once_repeat_rejected {σ α : Type} (m : MethodId)
    (body : EnfState σ → Except Err α × EnfState σ) (s : EnfState σ)
    (h1 : isExactlyOnce m = true) (h2 : s.shotPhase = declaredPhase m)
    (hbody : ∀ t, ((body t).2).shotPhase = t.shotPhase ∧ ((body t).2).called = t.called) :
    (enforcePhase m body ((enforcePhase m body s).2)).1
      = .error (.alreadyCalled m) := by
  by_cases hmem : (declaredPhase m, m) ∈ s.called
  · have hfirst : (enforcePhase m body s).2 = s := by
      simp [enforcePhase, h2, h1, hmem]
    rw [hfirst]
    simp [enforcePhase, h2, h1, hmem]
  · have hfirst : (enforcePhase m body s).2
        = (body { s with called := (declaredPhase m, m) :: s.called }).2 := by
      simp [enforcePhase, h2, h1, hmem]
    rw [hfirst]
    have hp : ((body { s with called := (declaredPhase m, m) :: s.called }).2).shotPhase
        = declaredPhase m := (hbody _).1.trans h2
    have hc : (declaredPhase m, m)
        ∈ ((body { s with called := (declaredPhase m, m) :: s.called }).2).called := by
      rw [(hbody _).2]
      exact List.mem_cons_self _ _
    simp [enforcePhase, hp, h1, hc]

/-- Witness for C7: a second convert_timing call on the same instruction
in phase CONVERT_TIMING fails with AlreadyCalledError. -/
theorem exactly_once_repeat_rejected_witness :
    (enforcePhase .convertTiming (Instruction.convertTimingBody [7])
      ((enforcePhase .convertTiming (Instruction.convertTimingBody [7]) exConvertState).2)).1
      = .error (.alreadyCalled .convertTiming) :=
  exactly_once_repeat_rejected .convertTiming _ exConvertState rfl rfl (fun _ => ⟨rfl, rfl⟩)

/-- C1 (code_bug exhibit): convert_timing succeeds but computes nothing:
its body is the single statement pass, so after it runs on an instruction
with nominal time 5/2 in phase CONVERT_TIMING, quantised_t and relative_t
are still None rather than the claimed rounded tick count; and
Function.convert_timing is the same wrapped no-op. -/
theorem convert_timing_leaves_quantised_t_unset :
    (Instruction.convertTiming [7] exConvertState).1 = .ok ()
  ∧ ((Instruction.convertTiming [7] exConvertState).2).inner.quantisedT = none
  ∧ ((Instruction.convertTiming [7] exConvertState).2).inner.relativeT = none
  ∧ Function.convertTiming [7] exConvertState = Instruction.convertTiming [7] exConvertState :=
  ⟨rfl, rfl, rfl, rfl⟩

/-- C2: in phase ADD_DEVICES, constructing a child device under a parent
succeeds exactly when the child class passes the isinstance test against
the declared allowed_devices of the parent; on failure the error is
structural and the parent child list is unchanged; on success the child is
appended at the end and its parent, shot and pseudoclock references are
bound, the pseudoclock being the parent one, or the child itself when the
child is a Pseudoclock. -/
theorem add_device_capability_gated (shotPhase : Phase) (parent : ParentView)
    (childId : Nat) (childKind : DeviceKind) (h : shotPhase = Phase.addDevices) :
    (accepts parent.kind childKind = true →
      Device.init shotPhase parent childId childKind =
        (.ok { parent := parent.nodeId, shot := parent.shot,
               pseudoclock := if subclassOf childKind .pseudoclock then some childId
                              else parent.pseudoclock },
         { parent with devices := parent.devices ++ [childId] }))
  ∧ (accepts parent.kind childKind = false →
      Device.init shotPhase parent childId childKind = (.error .structural, parent)) := by
  subst h
  constructor
  · intro hacc
    simp [Device.init, HasDevices.addDevice, hacc]
  · intro hacc
    simp [Device.init, HasDevices.addDevice, hacc]

/-- Witness for C2: a Pseudoclock parent accepts a ClockLine child
(appending it and binding the references) and rejects a StaticDevice
child, leaving its child list unchanged. -/
theorem add_device_capability_gated_witness :
    Device.init .addDevices exPseudoclockParent 11 .clockLine =
      (.ok { parent := 10, shot := 0, pseudoclock := some 10 },
       { exPseudoclockParent with devices := exPseudoclockParent.devices ++ [11] })
  ∧ Device.init .addDevices exPseudoclockParent 12 .staticDevice =
      (.error .structural, exPseudoclockParent) :=
  ⟨(add_device_capability_gated _ exPseudoclockParent 11 .clockLine rfl).1 rfl,
   (add_device_capability_gated _ exPseudoclockParent 12 .staticDevice rfl).2 rfl⟩

/-- C3 (code_bug exhibit): for a ClockLine under a Pseudoclock with
timebase 1/10 and clock_minimum_period 1, holding one ClockableDevice
with minimum period 6/5, establish_common_limits computes
common_clock_minimum_period = 1/5, whereas the claimed value
ceil(max(p1..pn)/T)*T is 6/5; the computed value is not that multiple
and in fact lies below the device requirement (rounded down). -/
theorem clockline_period_not_rounded_up_to_timebase_multiple :
    exClockable.attrs.clockMinimumPeriod = 6/5
  ∧ exClockLineLimits.commonClockMinimumPeriod = 1/5
  ∧ ((⌈((6/5 : ℚ) / (1/10))⌉ : ℚ) * (1/10) = 6/5)
  ∧ (1/5 : ℚ) ≠ 6/5
  ∧ (1/5 : ℚ) < 6/5 := by
  refine ⟨rfl, ?_, by norm_num, by norm_num, by norm_num⟩
  simp [exClockLineLimits, ClockLine.establishCommonLimits, exClockable,
        DevForest.descendantDevices, clockLimitsLoop, pyTrunc, Rat.floor]
  norm_num

/-- C4 (code_bug exhibit): on a Shot whose subtree is
PseudoclockDevice 1 → Pseudoclock 2 → ClockLine 3 → ClockableDevice 4,
descendant_devices with recurse_into_pseudoclocks false returns the empty
list (omitting the non-Pseudoclock descendants 1, 3 and 4), and with
recurse_into_pseudoclocks true returns only device 1, excluding the
Pseudoclock 2 and its whole subtree. -/
theorem descendant_devices_traversal_inverted :
    DevForest.descendantDevices false exShotForest = []
  ∧ (DevForest.descendantDevices true exShotForest).map DevAttrs.devId = [1]
  ∧ subclassOf .pseudoclockDevice .pseudoclock = false
  ∧ (2 : Nat) ∉ (DevForest.descendantDevices true exShotForest).map DevAttrs.devId := by
  have hfalse : DevForest.descendantDevices false exShotForest = [] := by
    simp [exShotForest, exPCD, exPseudoclock, exClockLine, exClockable,
          DevForest.descendantDevices]
  have htrue : (DevForest.descendantDevices true exShotForest).map DevAttrs.devId = [1] := by
    simp [exShotForest, exPCD, exPseudoclock, exClockLine, exClockable,
          DevForest.descendantDevices, DevTree.descendantDevices, DevTree.attrs, subclassOf]
  refine ⟨hfalse, htrue, rfl, ?_⟩
  rw [htrue]
  decide

/-- C5 (code_bug exhibit): for the same ClockLine, whose one
ClockableDevice declares minimum trigger duration 1/10,
establish_common_limits leaves common_clock_minimum_trigger at 0 with no
limiting device retained, instead of the claimed maximum 1/10 with the
device identity. -/
theorem clockline_trigger_limit_ignores_devices :
    exClockable.attrs.clockMinimumTrigger = 1/10
  ∧ exClockLineLimits.commonClockMinimumTrigger = 0
  ∧ exClockLineLimits.clockTriggerLimitingDevice = none
  ∧ (0 : ℚ) ≠ 1/10 := by
  refine ⟨rfl, ?_, ?_, by norm_num⟩ <;>
    simp [exClockLineLimits, ClockLine.establishCommonLimits, exClockable,
          DevForest.descendantDevices, clockLimitsLoop, pyTrunc]

/-- C8: when the Shot advances the phase through set_phase while some
registered node has a required exactly-once method of the phase being
exited missing from its called record, the advance fails with a
NotCalledError identifying an offending node and its missing required
operation (and the phase is not assigned). -/
theorem phase_advance_gap_not_called (newP : Phase) (s : ShotPhaseState) (p : Phase)
    (hp : s.phase = some p) (n : RegNode) (hn : n ∈ s.instances)
    (m : MethodId) (hm : m ∈ requiredOnce p) (hmiss : (p, m) ∉ n.called) :
    ∃ n2 ∈ s.instances, ∃ m2 ∈ requiredOnce p, (p, m2) ∉ n2.called ∧
      setPhase newP s = .error (.notCalled n2.nodeId m2) := by
  obtain ⟨n2, hn2, m2, hm2, hmiss2, heq⟩ :=
    checkAll_error_of_gap p s.instances ⟨n, hn, m, hm, hmiss⟩
  exact ⟨n2, hn2, m2, hm2, hmiss2, by simp [setPhase, hp, heq]⟩

/-- Witness for C8: advancing out of ESTABLISH_COMMON_LIMITS with one
registered node that never had establish_common_limits called fails with
NotCalledError for that node and method. -/
theorem phase_advance_gap_not_called_witness :
    ∃ n2 ∈ exPhaseState.instances, ∃ m2 ∈ requiredOnce .establishCommonLimits,
      (Phase.establishCommonLimits, m2) ∉ n2.called ∧
      setPhase .establishInitialAttributes exPhaseState
        = .error (.notCalled n2.nodeId m2) :=
  phase_advance_gap_not_called .establishInitialAttributes exPhaseState
    .establishCommonLimits rfl { nodeId := 0, called := [] } (by decide)
    .establishCommonLimits (by decide) (by decide)

/-- C9: adding a PseudoclockDevice to a Shot that already records a
master pseudoclock device fails immediately with a structural error and
the state is unchanged; and Shot.add_device preserves the invariant that
the Shot has at most one direct PseudoclockDevice child. -/
theorem shot_master_pseudoclock_unique (childId : Nat) (childKind : DeviceKind)
    (s : ShotState) :
    (∀ m0, s.masterPseudoclock = some m0 →
      subclassOf childKind .pseudoclockDevice = true →
      Shot.addDevice childId childKind s = (.error .structural, s))
  ∧ (shotInv s → shotInv (Shot.addDevice childId childKind s).2) := by
  constructor
  · intro m0 hm hk
    simp [Shot.addDevice, hk, hm]
  · intro hinv
    obtain ⟨hcount, hnone⟩ := hinv
    by_cases hk : subclassOf childKind .pseudoclockDevice = true
    · cases hms : s.masterPseudoclock with
      | some m0 =>
          simp only [Shot.addDevice, hk, if_true, hms]
          exact ⟨hcount, hnone⟩
      | none =>
          have hzero : pcdCount s = 0 := hnone hms
          simp only [Shot.addDevice, hk, if_true, hms]
          apply shotInv_superAdd
          · have he : pcdCount { s with masterPseudoclock := some childId }
                = pcdCount s := rfl
            rw [he, hzero, hk]
            simp
          · intro habs
            simp at habs
    · have hkf : subclassOf childKind .pseudoclockDevice = false := by
        simpa using hk
      simp only [Shot.addDevice, hkf, Bool.false_eq_true, if_false]
      apply shotInv_superAdd
      · rw [hkf]
        simpa using hcount
      · intro hmn
        exact ⟨hnone hmn, hkf⟩

/-- Witness for C9: with a master pseudoclock device already recorded,
adding a second PseudoclockDevice fails structurally with the state
unchanged, and the invariant still holds afterwards. -/
theorem shot_master_pseudoclock_unique_witness :
    Shot.addDevice 9 .pseudoclockDevice exShotWithMaster
      = (.error .structural, exShotWithMaster)
  ∧ shotInv (Shot.addDevice 9 .pseudoclockDevice exShotWithMaster).2 :=
  ⟨(shot_master_pseudoclock_unique 9 .pseudoclockDevice exShotWithMaster).1 7 rfl rfl,
   (shot_master_pseudoclock_unique 9 .pseudoclockDevice exShotWithMaster).2 (by decide)⟩
